import Mathlib

/-!
Verification of the my-todo-app backend: the CRUD contract over the single
`list` table and the Prometheus middleware of `backend/main.go`.

The four API handlers (`TodoItems`, `CreateTodoItem`, `UpdateTodoItem`,
`DeleteTodoItem`) and `SetupPostgres` live in files of the `api` package that
are not part of the provided sources; only their routes (`backend/main.go`)
and their tests are present. Those handlers are therefore modelled from the
specification, as marked on each definition. The Prometheus middleware is
embedded directly from `backend/main.go`.
-/

namespace TodoApp

/-- A row of the `list` table, spec §3:
`list(id SERIAL PRIMARY KEY, item TEXT, done BOOLEAN)`. -/
structure TodoItem where
  id : Nat
  item : String
  done : Bool
deriving Repr, DecidableEq

/-- The `list` table together with its serial sequence (`list_id_seq` in the
tests). `nextId` is the value the sequence will assign next. -/
structure Table where
  rows : List TodoItem
  nextId : Nat
deriving Repr, DecidableEq

/-- The empty table with the sequence reset, as produced by the test helper
`emptyTable` (`DELETE FROM list; ALTER SEQUENCE list_id_seq RESTART WITH 1`). -/
def emptyTable : Table := { rows := [], nextId := 1 }

/-- The JSON body shapes the handlers can produce. `itemsNull` stands for a
JSON `null` under the `items` key, so that "empty array, never null" is a
statable distinction. -/
inductive RespBody where
  | itemsArr (xs : List TodoItem)
  | itemsNull
  | item (x : TodoItem)
  | message (s : String)
deriving Repr, DecidableEq

/-- An HTTP response: status code and JSON body. -/
structure Resp where
  status : Nat
  body : RespBody
deriving Repr, DecidableEq

/-- Modelled from the spec: the list operation (handler `api.TodoItems`, not
under src/). "Queries all rows from the table... Returns a JSON object with
key `items` mapping to an array of TodoItem (empty array, never null, when
the table is empty)." Side effects: none. -/
def TodoItems (t : Table) : Resp :=
  { status := 200, body := RespBody.itemsArr t.rows }

/-- Modelled from the spec: the create operation (handler
`api.CreateTodoItem`, not under src/). "Inserts a new row, storage layer
assigns `id`, `done` defaults to false. Returns the created record
(including assigned id) with HTTP 201." No validation of the item text. -/
def CreateTodoItem (t : Table) (itemText : String) : Table × Resp :=
  let newRow : TodoItem := { id := t.nextId, item := itemText, done := false }
  ({ rows := t.rows ++ [newRow], nextId := t.nextId + 1 },
   { status := 201, body := RespBody.item newRow })

/-- Whether some row of the table carries the given id. -/
def rowExists (t : Table) (id : Nat) : Bool :=
  t.rows.any (fun r => r.id == id)

/-- Modelled from the spec: the update operation (handler
`api.UpdateTodoItem`, not under src/). "If no row matches `id`, responds 404
with `{"message": "not found"}`. On success, sets the row's `done` field and
returns 200... Only `done` is mutable." -/
def UpdateTodoItem (t : Table) (id : Nat) (done : Bool) : Table × Resp :=
  if rowExists t id then
    ({ t with
        rows := t.rows.map (fun r => if r.id == id then { r with done := done } else r) },
     { status := 200, body := RespBody.message "updated" })
  else
    (t, { status := 404, body := RespBody.message "not found" })

/-- Modelled from the spec: the delete operation (handler
`api.DeleteTodoItem`, not under src/). "If no matching row, responds 404 with
`{"message": "not found"}`. On success, permanently removes the row and
returns 200 (or 204)." -/
def DeleteTodoItem (t : Table) (id : Nat) : Table × Resp :=
  if rowExists t id then
    ({ t with rows := t.rows.filter (fun r => r.id != id) },
     { status := 200, body := RespBody.message "deleted" })
  else
    (t, { status := 404, body := RespBody.message "not found" })

/-- Run a sequence of create operations, threading the table. -/
def createAll (t : Table) (texts : List String) : Table :=
  texts.foldl (fun acc s => (CreateTodoItem acc s).1) t

/-! ## The Prometheus middleware of `backend/main.go` -/

/-- How the wrapped handler chain (`c.Next()`) ends: normally with a written
status, or by panicking. -/
inductive HandlerOutcome where
  | completes (status : Nat)
  | panics
deriving Repr, DecidableEq

/-- The observable metric actions of `prometheusMiddleware`, in order. -/
inductive MWEvent where
  | gaugeInc
  | gaugeDec
  | handlerRun
  | counterInc (method path statusText : String)
  | durationObserve (method path : String)
deriving Repr, DecidableEq

/-- `http.StatusText` for the status codes this service produces; the Go
function returns the empty string for unknown codes. -/
def statusText (code : Nat) : String :=
  if code == 200 then "OK"
  else if code == 201 then "Created"
  else if code == 204 then "No Content"
  else if code == 404 then "Not Found"
  else if code == 500 then "Internal Server Error"
  else ""

/-- The sequence of metric actions `prometheusMiddleware` (backend/main.go
lines 50-73) performs for one request. If `path == "/metrics"` it calls
`c.Next()` and returns at once. Otherwise it increments the in-flight gauge,
defers the decrement, and calls `c.Next()`: on a panic only the deferred
decrement runs before the panic propagates; on normal completion the counter
increment and histogram observation run, then the deferred decrement. -/
def prometheusMiddlewareTrace (method path : String) (o : HandlerOutcome) :
    List MWEvent :=
  if path == "/metrics" then [MWEvent.handlerRun]
  else
    match o with
    | HandlerOutcome.panics =>
        [MWEvent.gaugeInc, MWEvent.handlerRun, MWEvent.gaugeDec]
    | HandlerOutcome.completes st =>
        [MWEvent.gaugeInc, MWEvent.handlerRun,
         MWEvent.counterInc method path (statusText st),
         MWEvent.durationObserve method path,
         MWEvent.gaugeDec]

/-- The registry state of the three metrics of `backend/main.go`:
the `http_in_flight_requests` gauge value, and the recorded label sets of the
`http_requests_total` counter and `http_request_duration_seconds`
histogram (one entry per increment / observation). -/
structure MetricsState where
  inFlight : Int
  httpRequestsTotal : List (String × String × String)
  httpRequestDuration : List (String × String)
deriving Repr, DecidableEq

/-- Apply one metric action to the registry state. -/
def applyEvent (s : MetricsState) (e : MWEvent) : MetricsState :=
  match e with
  | MWEvent.gaugeInc => { s with inFlight := s.inFlight + 1 }
  | MWEvent.gaugeDec => { s with inFlight := s.inFlight - 1 }
  | MWEvent.handlerRun => s
  | MWEvent.counterInc m p st =>
      { s with httpRequestsTotal := s.httpRequestsTotal ++ [(m, p, st)] }
  | MWEvent.durationObserve m p =>
      { s with httpRequestDuration := s.httpRequestDuration ++ [(m, p)] }

/-- The registry state after `prometheusMiddleware` handles one request. -/
def runPrometheusMiddleware (method path : String) (o : HandlerOutcome)
    (s : MetricsState) : MetricsState :=
  (prometheusMiddlewareTrace method path o).foldl applyEvent s

/-! ## Theorems -/

/-- The digit accumulator of `Nat.toDigitsCore` never shrinks. -/
theorem toDigitsCore_length_le (b : Nat) :
    ∀ (f n : Nat) (ds : List Char),
      ds.length ≤ (Nat.toDigitsCore b f n ds).length := by
  intro f
  induction f with
  | zero => intro n ds; exact Nat.le_refl _
  | succ f ih =>
      intro n ds
      simp only [Nat.toDigitsCore]
      by_cases h : n / b = 0
      · simp [h]
      · rw [if_neg h]
        exact Nat.le_trans (Nat.le_succ _)
          (ih (n / b) (Nat.digitChar (n % b) :: ds))

/-- `Nat.toDigits` always produces at least one digit. -/
theorem toDigits_length_pos (b n : Nat) : 0 < (Nat.toDigits b n).length := by
  have hle := toDigitsCore_length_le b n (n / b) [Nat.digitChar (n % b)]
  rw [Nat.toDigits]
  simp only [Nat.toDigitsCore]
  by_cases h : n / b = 0
  · simp [h]
  · rw [if_neg h]
    exact Nat.lt_of_lt_of_le (by simp) hle

/-- The decimal string of a natural number is never empty. -/
theorem natToString_ne_empty (n : Nat) : toString n ≠ "" := by
  intro hc
  have h2 : (Nat.toDigits 10 n).length = 0 := congrArg (fun s => s.data.length) hc
  have h3 := toDigits_length_pos 10 n
  rw [h2] at h3
  exact Nat.lt_irrefl 0 h3

/-- Invariant of a sequence of creates: the listed item texts are the old
texts followed by the created ones in order, every id stays below the
sequence value, every row is an old row or has `done = false`, and id
distinctness is preserved. -/
theorem createAll_invariant (texts : List String) : ∀ (t : Table),
    (∀ r ∈ t.rows, r.id < t.nextId) →
    ((createAll t texts).rows.map TodoItem.item
        = t.rows.map TodoItem.item ++ texts) ∧
    (∀ r ∈ (createAll t texts).rows, r.id < (createAll t texts).nextId) ∧
    (∀ r ∈ (createAll t texts).rows, r ∈ t.rows ∨ r.done = false) ∧
    ((t.rows.map TodoItem.id).Nodup →
        ((createAll t texts).rows.map TodoItem.id).Nodup) := by
  induction texts with
  | nil =>
      intro t h
      exact ⟨by simp [createAll], h, fun r hr => Or.inl hr, fun h2 => h2⟩
  | cons s rest ih =>
      intro t h
      have hrows : (CreateTodoItem t s).1.rows
          = t.rows ++ [{ id := t.nextId, item := s, done := false }] := rfl
      have hnext : (CreateTodoItem t s).1.nextId = t.nextId + 1 := rfl
      have hlt : ∀ r ∈ (CreateTodoItem t s).1.rows,
          r.id < (CreateTodoItem t s).1.nextId := by
        intro r hr
        rw [hrows] at hr
        rw [hnext]
        rcases List.mem_append.mp hr with hr | hr
        · exact Nat.lt_succ_of_lt (h r hr)
        · simp only [List.mem_singleton] at hr
          subst hr
          exact Nat.lt_succ_self _
      have hca : createAll t (s :: rest) = createAll (CreateTodoItem t s).1 rest := rfl
      obtain ⟨ih1, ih2, ih3, ih4⟩ := ih (CreateTodoItem t s).1 hlt
      rw [hca]
      refine ⟨?_, ih2, ?_, ?_⟩
      · rw [ih1, hrows]
        simp
      · intro r hr
        rcases ih3 r hr with hrmem | hdone
        · rw [hrows] at hrmem
          rcases List.mem_append.mp hrmem with h1 | h1
          · exact Or.inl h1
          · simp only [List.mem_singleton] at h1
            subst h1
            exact Or.inr rfl
        · exact Or.inr hdone
      · intro hnd
        apply ih4
        rw [hrows]
        simp only [List.map_append, List.map_cons, List.map_nil]
        rw [List.nodup_append]
        refine ⟨hnd, List.nodup_singleton _, ?_⟩
        intro a ha hb
        simp only [List.mem_singleton] at hb
        subst hb
        obtain ⟨r, hr, hid⟩ := List.mem_map.mp ha
        exact absurd (hid ▸ h r hr) (Nat.lt_irrefl _)

/-- C1: after any sequence of create operations starting from the empty
table, the list operation returns HTTP 200 with exactly the created items in
order, each with a non-empty id string, all ids pairwise distinct, and
`done = false` for every item. -/
theorem itemsCreate_listAll (texts : List String) :
    (TodoItems (createAll emptyTable texts)).status = 200 ∧
    ∃ xs : List TodoItem,
      (TodoItems (createAll emptyTable texts)).body = RespBody.itemsArr xs ∧
      xs.map TodoItem.item = texts ∧
      (xs.map TodoItem.id).Nodup ∧
      (∀ r ∈ xs, r.done = false) ∧
      (∀ r ∈ xs, toString r.id ≠ "") := by
  obtain ⟨h1, _h2, h3, h4⟩ :=
    createAll_invariant texts emptyTable (by simp [emptyTable])
  refine ⟨rfl, (createAll emptyTable texts).rows, rfl, ?_, ?_, ?_, ?_⟩
  · simpa [emptyTable] using h1
  · exact h4 (by simp [emptyTable])
  · intro r hr
    rcases h3 r hr with hmem | hd
    · simp [emptyTable] at hmem
    · exact hd
  · intro r _
    exact natToString_ne_empty r.id

/-- C2: when the table is empty, the list operation returns HTTP 200 with a
JSON object whose `items` key maps to an empty array, never to null. -/
theorem itemsGet_emptyList :
    (TodoItems emptyTable).status = 200 ∧
    (TodoItems emptyTable).body = RespBody.itemsArr [] ∧
    (TodoItems emptyTable).body ≠ RespBody.itemsNull := by
  refine ⟨rfl, rfl, ?_⟩
  simp [TodoItems, emptyTable]

/-- C3: for every id with no matching row, the update operation returns 404
with body `{"message": "not found"}` and leaves every row of the table
unchanged. -/
theorem itemUpdate_notExisting (t : Table) (id : Nat) (d : Bool)
    (h : ∀ r ∈ t.rows, r.id ≠ id) :
    UpdateTodoItem t id d =
      (t, { status := 404, body := RespBody.message "not found" }) := by
  have hx : rowExists t id = false := by
    simp only [rowExists, List.any_eq_false]
    intro r hr
    simpa using h r hr
  simp [UpdateTodoItem, hx]

/-- Witness for C3 at a concrete table and a concrete absent id. -/
theorem itemUpdate_notExisting_witness :
    UpdateTodoItem { rows := [{ id := 1, item := "a", done := false }], nextId := 2 } 999 true
      = ({ rows := [{ id := 1, item := "a", done := false }], nextId := 2 },
         { status := 404, body := RespBody.message "not found" }) :=
  itemUpdate_notExisting
    { rows := [{ id := 1, item := "a", done := false }], nextId := 2 } 999 true
    (by decide)

/-- C4: for every id with no matching row, the delete operation returns 404
with body `{"message": "not found"}` and leaves the table unchanged. -/
theorem itemDelete_notExisting (t : Table) (id : Nat)
    (h : ∀ r ∈ t.rows, r.id ≠ id) :
    DeleteTodoItem t id =
      (t, { status := 404, body := RespBody.message "not found" }) := by
  have hx : rowExists t id = false := by
    simp only [rowExists, List.any_eq_false]
    intro r hr
    simpa using h r hr
  simp [DeleteTodoItem, hx]

/-- Witness for C4 at a concrete table and a concrete absent id. -/
theorem itemDelete_notExisting_witness :
    DeleteTodoItem { rows := [{ id := 1, item := "b", done := true }], nextId := 2 } 999
      = ({ rows := [{ id := 1, item := "b", done := true }], nextId := 2 },
         { status := 404, body := RespBody.message "not found" }) :=
  itemDelete_notExisting
    { rows := [{ id := 1, item := "b", done := true }], nextId := 2 } 999
    (by decide)

/-- C7: for every item text, the create operation inserts one new row with
the storage-assigned id and `done = false`, and returns HTTP 201 with the
created record including the assigned id. -/
theorem itemCreate_single (t : Table) (s : String) :
    (CreateTodoItem t s).2.status = 201 ∧
    ∃ newRow : TodoItem,
      (CreateTodoItem t s).2.body = RespBody.item newRow ∧
      newRow.item = s ∧ newRow.done = false ∧ newRow.id = t.nextId ∧
      (CreateTodoItem t s).1.rows = t.rows ++ [newRow] ∧
      (CreateTodoItem t s).1.nextId = t.nextId + 1 := by
  exact ⟨rfl, { id := t.nextId, item := s, done := false },
    rfl, rfl, rfl, rfl, rfl, rfl⟩

/-- C8: the create operation accepts any item string, the empty string
included: it never rejects with a 4xx status and always inserts a row. -/
theorem itemCreate_acceptsAnyString (t : Table) (s : String) :
    (CreateTodoItem t s).2.status = 201 ∧
    (CreateTodoItem t s).1.rows.length = t.rows.length + 1 ∧
    (CreateTodoItem t "").2.status = 201 ∧
    (CreateTodoItem t "").1.rows.length = t.rows.length + 1 := by
  refine ⟨rfl, ?_, rfl, ?_⟩ <;> simp [CreateTodoItem]

/-- A row with the given id exists iff `rowExists` says so. -/
theorem rowExists_eq_true (t : Table) (id : Nat) :
    rowExists t id = true ↔ ∃ r ∈ t.rows, r.id = id := by
  simp [rowExists]

/-- C5: for every existing id, after the update operation with `done = true`
succeeds, a subsequent list shows that item with `done = true` and its id and
item text unchanged, and every other row fully unchanged: row `i` of the new
table is row `i` of the old one, with only the `done` field set when the id
matches. The item text cannot be changed through this endpoint. -/
theorem itemUpdate_existing (t : Table) (id : Nat)
    (h : ∃ r ∈ t.rows, r.id = id) :
    (UpdateTodoItem t id true).2.status = 200 ∧
    (TodoItems (UpdateTodoItem t id true).1).status = 200 ∧
    (TodoItems (UpdateTodoItem t id true).1).body =
      RespBody.itemsArr (UpdateTodoItem t id true).1.rows ∧
    (UpdateTodoItem t id true).1.rows.length = t.rows.length ∧
    (∀ i : Nat,
      (UpdateTodoItem t id true).1.rows[i]? =
        (t.rows[i]?).map
          (fun r => if r.id = id then { r with done := true } else r)) := by
  have hx : rowExists t id = true := (rowExists_eq_true t id).mpr h
  refine ⟨?_, ?_, ?_, ?_, ?_⟩
  · simp [UpdateTodoItem, hx]
  · rfl
  · rfl
  · simp [UpdateTodoItem, hx]
  · intro i
    simp only [UpdateTodoItem, hx, if_true, List.getElem?_map]
    rcases t.rows[i]? with _ | r
    · rfl
    · by_cases hid : r.id = id <;> simp [hid]

/-- Witness for C5 at a concrete two-row table, updating id 1. -/
theorem itemUpdate_existing_witness :
    (UpdateTodoItem
      { rows := [{ id := 1, item := "ToUpdate", done := false },
                 { id := 2, item := "Keep", done := false }], nextId := 3 }
      1 true).2.status = 200 ∧
    (UpdateTodoItem
      { rows := [{ id := 1, item := "ToUpdate", done := false },
                 { id := 2, item := "Keep", done := false }], nextId := 3 }
      1 true).1.rows[0]? =
        some { id := 1, item := "ToUpdate", done := true } ∧
    (UpdateTodoItem
      { rows := [{ id := 1, item := "ToUpdate", done := false },
                 { id := 2, item := "Keep", done := false }], nextId := 3 }
      1 true).1.rows[1]? =
        some { id := 2, item := "Keep", done := false } := by
  have h := itemUpdate_existing
    { rows := [{ id := 1, item := "ToUpdate", done := false },
               { id := 2, item := "Keep", done := false }], nextId := 3 }
    1 ⟨{ id := 1, item := "ToUpdate", done := false }, by decide, rfl⟩
  refine ⟨h.1, ?_, ?_⟩
  · rw [h.2.2.2.2 0]; decide
  · rw [h.2.2.2.2 1]; decide

/-- C6: for every existing id, the delete operation succeeds with status 200
(hence 200 or 204), and a subsequent list excludes the item with that id and
includes every other item unchanged, in their original order. -/
theorem itemDelete_existing (t : Table) (id : Nat)
    (h : ∃ r ∈ t.rows, r.id = id) :
    ((DeleteTodoItem t id).2.status = 200 ∨ (DeleteTodoItem t id).2.status = 204) ∧
    (∀ r : TodoItem,
      r ∈ (DeleteTodoItem t id).1.rows ↔ (r ∈ t.rows ∧ r.id ≠ id)) ∧
    (DeleteTodoItem t id).1.rows.Sublist t.rows ∧
    (TodoItems (DeleteTodoItem t id).1).body =
      RespBody.itemsArr (DeleteTodoItem t id).1.rows := by
  have hx : rowExists t id = true := (rowExists_eq_true t id).mpr h
  refine ⟨Or.inl (by simp [DeleteTodoItem, hx]), ?_, ?_, rfl⟩
  · intro r
    simp [DeleteTodoItem, hx, List.mem_filter]
  · simp only [DeleteTodoItem, hx, if_true]
    exact List.filter_sublist t.rows

/-- Witness for C6 at a concrete two-row table, deleting id 1. -/
theorem itemDelete_existing_witness :
    ((DeleteTodoItem
        { rows := [{ id := 1, item := "ToDelete", done := false },
                   { id := 2, item := "ToKeep", done := false }], nextId := 3 }
        1).2.status = 200 ∨
     (DeleteTodoItem
        { rows := [{ id := 1, item := "ToDelete", done := false },
                   { id := 2, item := "ToKeep", done := false }], nextId := 3 }
        1).2.status = 204) ∧
    ({ id := 2, item := "ToKeep", done := false } : TodoItem) ∈
      (DeleteTodoItem
        { rows := [{ id := 1, item := "ToDelete", done := false },
                   { id := 2, item := "ToKeep", done := false }], nextId := 3 }
        1).1.rows ∧
    ¬ ({ id := 1, item := "ToDelete", done := false } : TodoItem) ∈
      (DeleteTodoItem
        { rows := [{ id := 1, item := "ToDelete", done := false },
                   { id := 2, item := "ToKeep", done := false }], nextId := 3 }
        1).1.rows := by
  have h := itemDelete_existing
    { rows := [{ id := 1, item := "ToDelete", done := false },
               { id := 2, item := "ToKeep", done := false }], nextId := 3 }
    1 ⟨{ id := 1, item := "ToDelete", done := false }, by decide, rfl⟩
  refine ⟨h.1, ?_, ?_⟩
  · exact (h.2.1 _).mpr ⟨by decide, by decide⟩
  · intro hc
    exact absurd ((h.2.1 _).mp hc).2 (by decide)

/-- C9: for every request whose path is not `/metrics`, the middleware's
first metric action is the in-flight gauge increment and its last is the
gauge decrement, regardless of the handler's outcome, and the gauge returns
to its prior value; a request to `/metrics` leaves the metrics state
untouched. -/
theorem prometheusMiddleware_inFlight_balanced
    (method path : String) (o : HandlerOutcome) (s : MetricsState)
    (h : path ≠ "/metrics") :
    (prometheusMiddlewareTrace method path o).head? = some MWEvent.gaugeInc ∧
    (prometheusMiddlewareTrace method path o).getLast? = some MWEvent.gaugeDec ∧
    (runPrometheusMiddleware method path o s).inFlight = s.inFlight ∧
    runPrometheusMiddleware method "/metrics" o s = s := by
  have hb : (path == "/metrics") = false := beq_eq_false_iff_ne.mpr h
  cases o with
  | panics =>
      refine ⟨?_, ?_, ?_, ?_⟩ <;>
        simp [prometheusMiddlewareTrace, runPrometheusMiddleware, applyEvent, hb]
  | completes st =>
      refine ⟨?_, ?_, ?_, ?_⟩ <;>
        simp [prometheusMiddlewareTrace, runPrometheusMiddleware, applyEvent, hb]

/-- Witness for C9 on a completed GET /items request from a zeroed registry. -/
theorem prometheusMiddleware_inFlight_balanced_witness :
    (runPrometheusMiddleware "GET" "/items" (HandlerOutcome.completes 200)
      { inFlight := 0, httpRequestsTotal := [], httpRequestDuration := [] }).inFlight = 0 :=
  (prometheusMiddleware_inFlight_balanced "GET" "/items" (HandlerOutcome.completes 200)
    { inFlight := 0, httpRequestsTotal := [], httpRequestDuration := [] }
    (by decide)).2.2.1

/-- C10: if the handler panics during a non-`/metrics` request, the deferred
gauge decrement still runs (the trace is increment, handler, decrement), so
the gauge is balanced, but the total-requests counter and the duration
histogram are not updated. -/
theorem prometheusMiddleware_panicSkipsCounter
    (method path : String) (s : MetricsState) (h : path ≠ "/metrics") :
    (runPrometheusMiddleware method path HandlerOutcome.panics s).inFlight
      = s.inFlight ∧
    prometheusMiddlewareTrace method path HandlerOutcome.panics =
      [MWEvent.gaugeInc, MWEvent.handlerRun, MWEvent.gaugeDec] ∧
    (runPrometheusMiddleware method path HandlerOutcome.panics s).httpRequestsTotal
      = s.httpRequestsTotal ∧
    (runPrometheusMiddleware method path HandlerOutcome.panics s).httpRequestDuration
      = s.httpRequestDuration := by
  have hb : (path == "/metrics") = false := beq_eq_false_iff_ne.mpr h
  refine ⟨?_, ?_, ?_, ?_⟩ <;>
    simp [prometheusMiddlewareTrace, runPrometheusMiddleware, applyEvent, hb]

/-- Witness for C10 on a panicking GET /items request from a zeroed registry. -/
theorem prometheusMiddleware_panicSkipsCounter_witness :
    (runPrometheusMiddleware "GET" "/items" HandlerOutcome.panics
      { inFlight := 0, httpRequestsTotal := [], httpRequestDuration := [] }).httpRequestsTotal
      = [] :=
  (prometheusMiddleware_panicSkipsCounter "GET" "/items"
    { inFlight := 0, httpRequestsTotal := [], httpRequestDuration := [] }
    (by decide)).2.2.1

end TodoApp
